import Mathlib

/-!
# PN532 reader for the ESP32-S3: a shallow embedding of `pn532_tage_reader_esp32.c`

The C file drives a PN532 over I2C.  Everything it does to the outside world
is a call into the ESP-IDF driver (a bus transaction, a task delay, a log
line), so the embedding threads an explicit `World` through every function:

* `World.bus k` is what the I2C driver answers to the `k`-th bus transaction
  (the return value of `i2c_master_cmd_begin` and, for a read, the bytes it
  stored into the caller's buffer);
* `World.n` counts the transactions issued so far;
* `World.uninit` is the content of uninitialised stack memory (the local
  arrays `rdy[1]`, `response[16]`, `response[20]` are never initialised);
* `World.trace` records, in order, every externally visible action.

`waitready` is a `while (1)` loop, so it is embedded with a fuel argument that
bounds the number of polls; the result `none` means "still polling after
`fuel` iterations", and the world returned with it is the state reached.

Bytes are natural numbers kept below 256 on every store into a buffer;
`esp_err_t` is `Int`.
-/

namespace PN532

/-! ## Constants of the source -/

abbrev esp_err_t := Int

def ESP_OK : esp_err_t := 0

def ESP_FAIL : esp_err_t := -1

def PN532_I2C_ADDRESS : Nat := 0x24

def PN532_I2C_READY : Nat := 0x01

/-- The `SAMConfigCmd` array of the source (line 19). -/
def SAMConfigCmd : List Nat :=
  [0x00, 0xFF, 0x05, 0xFB, 0xD4, 0x14, 0x01, 0x14, 0x01, 0x02, 0x00]

/-- The `ReadPassiveTargetCmd` array of the source (line 22). -/
def ReadPassiveTargetCmd : List Nat :=
  [0x0, 0xFF, 0x4, 0xFC, 0xD4, 0x4A, 0x1, 0x0, 0xE1, 0x0]

/-! ## The wire format, in the words of the specification

These two definitions are the only ones written from the specification rather
than from the C source; the command arrays above are compared with them. -/

/-- Data checksum of the specification:
`DCS = (0x100 - (sum(TFI, payload) & 0xFF)) & 0xFF`. -/
def specDcs (tfi : Nat) (payload : List Nat) : Nat :=
  (0x100 - ((tfi + payload.sum) &&& 0xFF)) &&& 0xFF

/-- Frame of the specification:
`[0x00, 0xFF, LEN, (0x100-LEN)&0xFF, TFI, <payload...>, DCS, 0x00]`, where `LEN`
counts the bytes from `TFI` up to, not including, `DCS`. -/
def specEncode (tfi : Nat) (payload : List Nat) : List Nat :=
  [0x00, 0xFF, payload.length + 1, (0x100 - (payload.length + 1)) &&& 0xFF, tfi]
    ++ payload ++ [specDcs tfi payload, 0x00]

/-- Field-by-field well-formedness of a host-to-controller frame, as the
specification lists it: preamble `0x00, 0xFF`; `LEN` is the number of bytes
from `TFI` up to (not including) the data checksum; the fourth byte is
`(0x100 - LEN) & 0xFF`; `TFI` is `0xD4`; the second-to-last byte is the data
checksum of `TFI` and payload; the last byte is `0x00`. -/
def specWellFormed (frame : List Nat) : Bool :=
  let n := frame.length
  let body := (frame.drop 4).take (n - 6)
  decide (7 ≤ n) &&
  frame.getD 0 0 == 0x00 &&
  frame.getD 1 0 == 0xFF &&
  frame.getD 2 0 == body.length &&
  frame.getD 3 0 == (0x100 - frame.getD 2 0) &&& 0xFF &&
  frame.getD 4 0 == 0xD4 &&
  frame.getD (n - 2) 0 == (0x100 - (body.sum &&& 0xFF)) &&& 0xFF &&
  frame.getD (n - 1) 1 == 0x00

/-! ## The world: bus, stack garbage and the trace of visible actions -/

/-- Answer of the I2C driver to one bus transaction: the value returned by
`i2c_master_cmd_begin`, and the bytes a read stored into the caller's buffer
(none at all when, say, the address byte is not acknowledged). -/
structure BusReply where
  ret : esp_err_t
  data : List Nat

/-- Argument of a log or `printf` call. -/
inductive LogArg where
  | str (s : String)
  | num (v : Int)
  deriving DecidableEq, Repr

/-- Externally visible actions, in the order the program performs them. -/
inductive Event where
  /-- The call `i2c_param_config` with its result. -/
  | param_config (ret : esp_err_t)
  /-- The call `i2c_driver_install` with its result. -/
  | driver_install (ret : esp_err_t)
  /-- One write transaction of `pn532_send_command`: address, bytes, result. -/
  | write (addr : Nat) (bytes : List Nat) (ret : esp_err_t)
  /-- One read transaction of `pn532_receive_response`: address, length, result. -/
  | read (addr : Nat) (len : Nat) (ret : esp_err_t)
  /-- The call `vTaskDelay(pdMS_TO_TICKS(ms))`. -/
  | delay (ms : Nat)
  /-- The call `ESP_LOGE(TAG, fmt, args...)`. -/
  | loge (fmt : String) (args : List LogArg)
  /-- The call `ESP_LOGI(TAG, fmt, args...)`. -/
  | logi (fmt : String) (args : List LogArg)
  /-- The call `printf(fmt, args...)`. -/
  | printf (fmt : String) (args : List LogArg)
  deriving DecidableEq, Repr

structure World where
  /-- Result of `i2c_param_config`. -/
  param_config_ret : esp_err_t
  /-- Result of `i2c_driver_install`. -/
  driver_install_ret : esp_err_t
  /-- Answer of the driver to the `k`-th bus transaction. -/
  bus : Nat → BusReply
  /-- Number of bus transactions issued so far. -/
  n : Nat
  /-- Content of byte `i` of a local array that comes into scope after `k`
  bus transactions, before anything is stored into it. -/
  uninit : Nat → Nat → Nat
  /-- Visible actions so far, oldest first. -/
  trace : List Event

/-- Append one visible action to the trace. -/
def World.emit (w : World) (e : Event) : World :=
  { w with trace := w.trace ++ [e] }

/-- The call `vTaskDelay(pdMS_TO_TICKS(ms))`. -/
def vTaskDelay (ms : Nat) (w : World) : World :=
  w.emit (Event.delay ms)

/-- An uninitialised local byte array of the given size. -/
def World.local_array (w : World) (size : Nat) : List Nat :=
  (List.range size).map (fun i => w.uninit w.n i % 256)

/-- Store `bytes` at the start of `buf`, as `i2c_master_read` does. -/
def store (buf bytes : List Nat) : List Nat :=
  bytes.map (fun b => b % 256) ++ buf.drop bytes.length

/-! ## The functions of the source -/

/-- Source lines 27-48. -/
def i2c_master_init (w : World) : esp_err_t × World :=
  let err := w.param_config_ret
  let w := w.emit (Event.param_config err)
  if err ≠ ESP_OK then
    (err, w.emit (Event.loge "I2C config failed!" []))
  else
    let err := w.driver_install_ret
    let w := w.emit (Event.driver_install err)
    let w := if err ≠ ESP_OK then w.emit (Event.loge "I2C driver install failed!" []) else w
    (err, w)

/-- Source lines 51-62: one write transaction carrying the first `length`
bytes of `command`; the result is that of `i2c_master_cmd_begin`. -/
def pn532_send_command (command : List Nat) (length : Nat) (w : World) : esp_err_t × World :=
  let ret := (w.bus w.n).ret
  (ret, { w with n := w.n + 1,
                 trace := w.trace ++ [Event.write PN532_I2C_ADDRESS (command.take length) ret] })

/-- Source lines 65-76: one read transaction of `length` bytes into
`response`; returns the result of `i2c_master_cmd_begin` and the buffer. -/
def pn532_receive_response (response : List Nat) (length : Nat) (w : World) :
    esp_err_t × List Nat × World :=
  let reply := w.bus w.n
  (reply.ret, store response (reply.data.take length),
    { w with n := w.n + 1,
             trace := w.trace ++ [Event.read PN532_I2C_ADDRESS length reply.ret] })

/-- The `while (1)` loop of `waitready` (source lines 81-92) run for at most
`fuel` iterations on the buffer `rdy`.  The `return false` of line 85 is
commented out in the source, so a failed read is logged and control falls
through to the test of `rdy[0]`. -/
def waitready_loop : Nat → List Nat → World → Option Bool × World
  | 0, _, w => (none, w)
  | fuel + 1, rdy, w =>
    match pn532_receive_response rdy 1 w with
    | (ret, rdy, w) =>
      let w := if ret ≠ ESP_OK then
          w.emit (Event.loge "Failed to receive response from PN532 %s response = %d"
            [LogArg.str "waitready", LogArg.num ret])
        else w
      if rdy.getD 0 0 = PN532_I2C_READY then
        (some true, w)
      else
        waitready_loop fuel rdy (vTaskDelay 50 w)

/-- Source lines 78-94. -/
def waitready (fuel : Nat) (w : World) : Option Bool × World :=
  waitready_loop fuel (w.local_array 1) w

/-- Source lines 97-133.  `PN32_DEBUG` is defined nowhere, so the two
`#if PN32_DEBUG` blocks are compiled out.  The value of `waitready()` is
discarded; `none` is returned when `waitready` is still polling. -/
def sam_configure (fuel : Nat) (w : World) : Option esp_err_t × World :=
  match pn532_send_command SAMConfigCmd SAMConfigCmd.length w with
  | (ret, w) =>
    if ret ≠ ESP_OK then
      (some ret, w.emit (Event.loge "Failed to send SAMConfig command" []))
    else
      match waitready fuel w with
      | (none, w) => (none, w)
      | (some _, w) =>
        let w := vTaskDelay 50 w
        let response := w.local_array 16
        match pn532_receive_response response 7 w with
        | (ret, response, w) =>
          if ret ≠ ESP_OK then
            (some ret, w.emit (Event.loge "Failed to receive response from PN532" []))
          else
            match pn532_receive_response response 7 w with
            | (ret, response, w) =>
              if ret ≠ ESP_OK then
                (some ret, w.emit (Event.loge "Failed to receive response from PN532" []))
              else
                (some ESP_OK,
                  w.emit (Event.logi "SAMConfig response: 0x%02X"
                    [LogArg.num (response.getD 0 0)]))

/-- The `for` loop of source lines 167-169: one `printf` per buffer byte. -/
def print_bytes (response : List Nat) (count : Nat) (w : World) : World :=
  (List.range count).foldl
    (fun w i => w.emit (Event.printf "0x%02X " [LogArg.num (response.getD i 0)])) w

/-- Source lines 136-172, with the `#if PN32_DEBUG` block compiled out. -/
def read_rfid_tag (fuel : Nat) (w : World) : Option esp_err_t × World :=
  let w := vTaskDelay 50 w
  match pn532_send_command ReadPassiveTargetCmd ReadPassiveTargetCmd.length w with
  | (ret, w) =>
    if ret ≠ ESP_OK then
      (some ret, w.emit (Event.loge "Failed to send read passive target command" []))
    else
      match waitready fuel w with
      | (none, w) => (none, w)
      | (some _, w) =>
        let response := w.local_array 20
        match pn532_receive_response response 7 w with
        | (ret, response, w) =>
          if ret ≠ ESP_OK then
            (some ret, w.emit (Event.loge "Failed to receive response from PN532" []))
          else
            match waitready fuel w with
            | (none, w) => (none, w)
            | (some _, w) =>
              match pn532_receive_response response 20 w with
              | (ret, response, w) =>
                if ret ≠ ESP_OK then
                  (some ret, w.emit (Event.loge "Failed to receive response from PN532" []))
                else
                  let w := w.emit (Event.logi "tag detected" [])
                  let w := print_bytes response 20 w
                  let w := w.emit (Event.printf "\n" [])
                  (some ESP_OK, w)

/-- The `while(1)` loop of `app_main` (source lines 188-196) run for at most
`iters` iterations. -/
def app_main_loop : Nat → Nat → World → Option Unit × World
  | 0, _, w => (none, w)
  | iters + 1, fuel, w =>
    match read_rfid_tag fuel w with
    | (none, w) => (none, w)
    | (some ret, w) =>
      let w := if ret ≠ ESP_OK then w.emit (Event.loge "Failed to read RFID tag" []) else w
      app_main_loop iters fuel (vTaskDelay 1000 w)

/-- Source lines 174-197.  `some ()` means that `app_main` returned. -/
def app_main (iters fuel : Nat) (w : World) : Option Unit × World :=
  match i2c_master_init w with
  | (ret, w) =>
    if ret ≠ ESP_OK then
      (some (), w.emit (Event.loge "I2C initialization failed" []))
    else
      match sam_configure fuel w with
      | (none, w) => (none, w)
      | (some ret, w) =>
        if ret ≠ ESP_OK then
          (some (), w.emit (Event.loge "SAM configuration failed" []))
        else
          app_main_loop iters fuel w

/-! ## Reading traces -/

/-- Bus transactions of a trace, in order. -/
def busOps (t : List Event) : List Event :=
  t.filter (fun e => match e with
    | Event.write _ _ _ => true
    | Event.read _ _ _ => true
    | _ => false)

/-- Number of write transactions in a trace that carry exactly `cmd`. -/
def cmdWrites (cmd : List Nat) (t : List Event) : Nat :=
  t.countP (fun e => match e with
    | Event.write _ bytes _ => decide (bytes = cmd)
    | _ => false)

/-- A scripted world: the `k`-th bus transaction is answered by the `k`-th
entry of `script`, later ones by `rest`; driver set-up succeeds; every
uninitialised byte holds `garbage`; nothing has happened yet. -/
def scripted (script : List BusReply) (rest : BusReply) (garbage : Nat) : World :=
  { param_config_ret := ESP_OK
    driver_install_ret := ESP_OK
    bus := fun k => script.getD k rest
    n := 0
    uninit := fun _ _ => garbage
    trace := [] }

/-! ## Example worlds and helpers for reading results -/

/-- Trace of `k` unsuccessful polls that each read successfully: a one-byte
read followed by the 50 ms sleep. -/
def idlePolls : Nat → List Event
  | 0 => []
  | k + 1 => Event.read PN532_I2C_ADDRESS 1 ESP_OK :: Event.delay 50 :: idlePolls k

/-- World in which the controller never becomes ready: every bus
transaction succeeds and every read stores the byte `0x00`. -/
def neverReady : World := scripted [] ⟨ESP_OK, [0x00]⟩ 0

/-- World whose first status read fails with `ESP_FAIL` and stores nothing,
while the uninitialised `rdy[0]` happens to hold `0x01`. -/
def failedPoll : World := scripted [⟨ESP_FAIL, []⟩] ⟨ESP_OK, [0x00]⟩ 0x01

/-- The seven-byte acknowledgement frame of the PN532 as it arrives over I2C
(status byte first); used only to script example worlds. -/
def ackBytes : List Nat := [0x01, 0x00, 0x00, 0xFF, 0x00, 0xFF, 0x00]

/-- Every bus transaction fails with `ESP_FAIL`. -/
def busDead : World := scripted [] ⟨ESP_FAIL, []⟩ 0

/-- The command write and the status poll succeed, the first frame read fails. -/
def firstReadFails : World :=
  scripted [⟨ESP_OK, []⟩, ⟨ESP_OK, [0x01]⟩] ⟨ESP_FAIL, []⟩ 0

/-- The command write, the poll and the first frame read succeed; the next
transaction fails. -/
def secondReadFails : World :=
  scripted [⟨ESP_OK, []⟩, ⟨ESP_OK, [0x01]⟩, ⟨ESP_OK, ackBytes⟩] ⟨ESP_FAIL, []⟩ 0

/-- As `secondReadFails`, with one more successful poll before the failure. -/
def dataReadFails : World :=
  scripted [⟨ESP_OK, []⟩, ⟨ESP_OK, [0x01]⟩, ⟨ESP_OK, ackBytes⟩, ⟨ESP_OK, [0x01]⟩]
    ⟨ESP_FAIL, []⟩ 0

/-- The `printf` lines that dump a buffer, one per byte. -/
def dumpOf (bytes : List Nat) : List Event :=
  bytes.map (fun (b : Nat) => Event.printf "0x%02X " [LogArg.num (b : Int)])

/-- Data-checksum byte of a received frame, located through its `LEN` byte:
it follows the `LEN` bytes that start at `TFI` (index 4). -/
def dcsByte (frame : List Nat) : Nat :=
  frame.getD (4 + frame.getD 2 0) 0

/-- Data checksum the wire format requires for a received frame: `specDcs` of
its `TFI` byte and payload. -/
def requiredDcs (frame : List Nat) : Nat :=
  specDcs (frame.getD 4 0) ((frame.drop 5).take (frame.getD 2 0 - 1))

/-- Twenty bytes holding a controller-to-host frame for one target with the
UID `DE AD BE EF`, whose data checksum `0x96` arrives as `0x97`. -/
def corruptedFrame : List Nat :=
  [0x00, 0xFF, 0x0C, 0xF4, 0xD5, 0x4B, 0x01, 0x01, 0x00, 0x04, 0x08, 0x04,
   0xDE, 0xAD, 0xBE, 0xEF, 0x97, 0x00, 0x00, 0x00]

/-- Tag-read exchange in which every transaction succeeds and the data frame
is `corruptedFrame`. -/
def corruptedWorld : World :=
  scripted [⟨ESP_OK, []⟩, ⟨ESP_OK, [0x01]⟩, ⟨ESP_OK, ackBytes⟩, ⟨ESP_OK, [0x01]⟩,
    ⟨ESP_OK, corruptedFrame⟩] ⟨ESP_OK, [0x00]⟩ 0

/-- Twenty bytes holding the well-formed controller-to-host frame with the
payload `4B 00`: command echo and a target count of zero. -/
def zeroTargetFrame : List Nat :=
  [0x00, 0xFF, 0x03, 0xFD, 0xD5, 0x4B, 0x00, 0xE0, 0x00, 0x00,
   0x00, 0x00, 0x00, 0x00, 0x00, 0x00, 0x00, 0x00, 0x00, 0x00]

/-- Tag-read exchange in which every transaction succeeds and the data frame
is `zeroTargetFrame`. -/
def zeroTargetWorld : World :=
  scripted [⟨ESP_OK, []⟩, ⟨ESP_OK, [0x01]⟩, ⟨ESP_OK, ackBytes⟩, ⟨ESP_OK, [0x01]⟩,
    ⟨ESP_OK, zeroTargetFrame⟩] ⟨ESP_OK, [0x00]⟩ 0

/-- Seven bytes that are no acknowledgement frame of any kind: they do not
even begin with a frame preamble. -/
def badAck : List Nat := [0x55, 0x55, 0x55, 0x55, 0x55, 0x55, 0x55]

/-- Every bus transaction succeeds; the controller is ready at once; both
7-byte reads of the configuration exchange return `badAck`; later reads return
the single byte `0x01`. -/
def badAckWorld : World :=
  scripted [⟨ESP_OK, []⟩, ⟨ESP_OK, [0x01]⟩, ⟨ESP_OK, badAck⟩, ⟨ESP_OK, badAck⟩]
    ⟨ESP_OK, [0x01]⟩ 0

/-- Every bus transaction succeeds and the controller is ready at once: the
acknowledgement frame, then the answer to the SAM configuration command. -/
def samOkWorld : World :=
  scripted [⟨ESP_OK, []⟩, ⟨ESP_OK, [0x01]⟩, ⟨ESP_OK, ackBytes⟩,
    ⟨ESP_OK, [0x01, 0x00, 0x00, 0xFF, 0x02, 0xFE, 0xD5]⟩] ⟨ESP_OK, [0x01]⟩ 0

/-! ## Theorems -/

theorem cmdWrites_append (cmd : List Nat) (s t : List Event) :
    cmdWrites cmd (s ++ t) = cmdWrites cmd s + cmdWrites cmd t := by
  simp [cmdWrites, List.countP_append]

theorem busOps_append (s t : List Event) : busOps (s ++ t) = busOps s ++ busOps t := by
  simp [busOps, List.filter_append]

theorem waitready_loop_stuck (b : Nat) (hb : b < 256) (hb1 : b ≠ 0x01) :
    ∀ (fuel : Nat) (rdy : List Nat) (w : World),
      (∀ k, w.n ≤ k → (w.bus k).ret = ESP_OK ∧ (w.bus k).data = [b]) →
      waitready_loop fuel rdy w =
        (none, { w with n := w.n + fuel, trace := w.trace ++ idlePolls fuel }) := by
  intro fuel
  induction fuel with
  | zero => intro rdy w _; simp [waitready_loop, idlePolls]
  | succ fuel ih =>
    intro rdy w hbus
    obtain ⟨hret, hdata⟩ := hbus w.n (Nat.le_refl _)
    have hne : ¬ (b % 256 = PN532_I2C_READY) := by
      rw [Nat.mod_eq_of_lt hb]; exact hb1
    simp only [waitready_loop, pn532_receive_response, hret, hdata, store]
    simp only [ne_eq, not_true_eq_false, if_false, List.take, List.map, List.cons_append,
      List.nil_append, List.getD_cons_zero, hne]
    rw [ih]
    · simp [vTaskDelay, World.emit, idlePolls, PN532_I2C_ADDRESS, Nat.add_assoc, Nat.add_comm 1]
    · intro k hk
      exact hbus k (by simp [vTaskDelay, World.emit] at hk; omega)

/-- Claim C1: both pre-built command frames are well-formed under the wire
format, field by field, and each array equals the wire-format encoding of its
own payload (`[0x14,0x01,0x14,0x01]` and `[0x4A,0x01,0x00]`, direction byte
`0xD4`). -/
theorem command_frames_well_formed :
    specWellFormed SAMConfigCmd = true ∧
    specWellFormed ReadPassiveTargetCmd = true ∧
    SAMConfigCmd = specEncode 0xD4 [0x14, 0x01, 0x14, 0x01] ∧
    ReadPassiveTargetCmd = specEncode 0xD4 [0x4A, 0x01, 0x00] := by
  refine ⟨?_, ?_, ?_, ?_⟩ <;> decide

/-- Claim C8: when the first status read succeeds and yields `0x01`,
`waitready` returns `true` at once; the only action it performs is that one
bus read (no sleep, no log line). -/
theorem waitready_immediate (fuel : Nat) (w : World) (more : List Nat)
    (hfuel : 0 < fuel)
    (hret : (w.bus w.n).ret = ESP_OK) (hdata : (w.bus w.n).data = 0x01 :: more) :
    waitready fuel w =
      (some true, { w with n := w.n + 1,
                           trace := w.trace ++ [Event.read PN532_I2C_ADDRESS 1 ESP_OK] }) := by
  obtain ⟨k, rfl⟩ : ∃ k, fuel = k + 1 := ⟨fuel - 1, by omega⟩
  simp [waitready, waitready_loop, pn532_receive_response, hret, hdata, store,
    PN532_I2C_READY]

theorem waitready_immediate_witness :
    waitready 1 (scripted [⟨ESP_OK, [0x01]⟩] ⟨ESP_FAIL, []⟩ 0) =
      (some true, { scripted [⟨ESP_OK, [0x01]⟩] ⟨ESP_FAIL, []⟩ 0 with
                      n := 1, trace := [Event.read PN532_I2C_ADDRESS 1 ESP_OK] }) :=
  waitready_immediate 1 (scripted [⟨ESP_OK, [0x01]⟩] ⟨ESP_FAIL, []⟩ 0) [] (by decide) rfl rfl

/-- Claim C7, refuted as stated: in a world where every status read succeeds
and yields `0x00`, no number of polls makes `waitready` return anything,
neither a failure nor a success. -/
theorem waitready_no_timeout :
    ¬ ∃ (fuel : Nat) (r : Bool), (waitready fuel neverReady).1 = some r := by
  rintro ⟨fuel, r, h⟩
  have hs := waitready_loop_stuck 0 (by decide) (by decide) fuel
    (neverReady.local_array 1) neverReady (fun k _ => ⟨rfl, by simp [neverReady, scripted]⟩)
  rw [waitready, hs] at h
  simp at h

/-- Claim C7, amended: `waitready` has no timeout.  For every status byte `b`
other than `0x01`, if every status read succeeds and yields `b`, then after
any number `fuel` of polls `waitready` has not returned (so it never returns
success, and never a failure either): it has issued exactly `fuel` one-byte
reads, each followed by a 50 ms sleep, and is still polling. -/
theorem waitready_polls_forever (b : Nat) (hb : b < 256) (hb1 : b ≠ 0x01) (w : World)
    (hbus : ∀ k, w.n ≤ k → (w.bus k).ret = ESP_OK ∧ (w.bus k).data = [b]) (fuel : Nat) :
    (waitready fuel w).1 = none ∧
    (waitready fuel w).2.n = w.n + fuel ∧
    (waitready fuel w).2.trace = w.trace ++ idlePolls fuel := by
  rw [waitready, waitready_loop_stuck b hb hb1 fuel _ w hbus]
  exact ⟨rfl, rfl, rfl⟩

theorem waitready_polls_forever_witness :
    (waitready 3 neverReady).1 = none ∧
    (waitready 3 neverReady).2.n = neverReady.n + 3 ∧
    (waitready 3 neverReady).2.trace = neverReady.trace ++ idlePolls 3 :=
  waitready_polls_forever 0 (by decide) (by decide) neverReady
    (fun k _ => ⟨rfl, by simp [neverReady, scripted]⟩) 3

/-- Claim C6, evaluated on the failing input: the first status read fails
with `ESP_FAIL` and stores nothing, the uninitialised `rdy[0]` holds `0x01`,
and `waitready` returns `true` on that very iteration, after the error
log line and without sleeping or polling again. -/
theorem waitready_failed_read_returns_true :
    (waitready 1 failedPoll).1 = some true ∧
    (waitready 1 failedPoll).2.trace =
      [Event.read PN532_I2C_ADDRESS 1 ESP_FAIL,
       Event.loge "Failed to receive response from PN532 %s response = %d"
         [LogArg.str "waitready", LogArg.num ESP_FAIL]] := by
  constructor
  · decide
  · decide

theorem waitready_loop_cmdWrites (cmd : List Nat) :
    ∀ (fuel : Nat) (rdy : List Nat) (w : World),
      cmdWrites cmd (waitready_loop fuel rdy w).2.trace = cmdWrites cmd w.trace := by
  intro fuel
  induction fuel with
  | zero => intro rdy w; simp [waitready_loop]
  | succ fuel ih =>
    intro rdy w
    simp only [waitready_loop, pn532_receive_response]
    split_ifs <;>
      simp [ih, vTaskDelay, World.emit, cmdWrites_append] <;>
      simp [cmdWrites]

theorem waitready_cmdWrites (cmd : List Nat) (fuel : Nat) (w : World) :
    cmdWrites cmd (waitready fuel w).2.trace = cmdWrites cmd w.trace :=
  waitready_loop_cmdWrites cmd fuel _ w

theorem sam_configure_cmdWrites (fuel : Nat) (w : World) :
    cmdWrites ReadPassiveTargetCmd (sam_configure fuel w).2.trace
      = cmdWrites ReadPassiveTargetCmd w.trace := by
  unfold sam_configure
  simp only [pn532_send_command]
  split_ifs
  · simp [World.emit, cmdWrites_append]; simp [cmdWrites, SAMConfigCmd, ReadPassiveTargetCmd]
  · have hw := waitready_cmdWrites ReadPassiveTargetCmd fuel
      { w with n := w.n + 1,
               trace := w.trace ++ [Event.write PN532_I2C_ADDRESS
                 (SAMConfigCmd.take SAMConfigCmd.length) (w.bus w.n).ret] }
    rcases hres : waitready fuel
      { w with n := w.n + 1,
               trace := w.trace ++ [Event.write PN532_I2C_ADDRESS
                 (SAMConfigCmd.take SAMConfigCmd.length) (w.bus w.n).ret] } with ⟨_ | b, w1⟩
    · rw [hres] at hw
      simp only at hw ⊢
      rw [hw, cmdWrites_append]
      simp [cmdWrites, SAMConfigCmd, ReadPassiveTargetCmd]
    · rw [hres] at hw
      simp only [pn532_receive_response, vTaskDelay, World.emit] at hw ⊢
      split_ifs <;>
        simp [cmdWrites_append, hw] <;>
        simp [cmdWrites, SAMConfigCmd, ReadPassiveTargetCmd]

/-- Claim C2: in both command exchanges, once the readiness waits return, a
bus error `e` on the command write or on either frame read makes the exchange
return exactly `e`, and the failed transaction is the last bus transaction of
the exchange: the transaction counter stands one past it and the bus
operations of the final trace end with it.  The six parts are, for
`sam_configure` and then for `read_rfid_tag`: failed write, failed first frame
read, failed second frame read. -/
theorem exchange_stops_at_bus_error (fuel : Nat) (w : World) (e : esp_err_t)
    (he : e ≠ ESP_OK) :
    ((w.bus w.n).ret = e →
      (sam_configure fuel w).1 = some e ∧
      (sam_configure fuel w).2.n = w.n + 1 ∧
      busOps (sam_configure fuel w).2.trace =
        busOps w.trace ++ [Event.write PN532_I2C_ADDRESS SAMConfigCmd e]) ∧
    (∀ (b1 : Bool) (w1 : World), (w.bus w.n).ret = ESP_OK →
      waitready fuel (pn532_send_command SAMConfigCmd SAMConfigCmd.length w).2 = (some b1, w1) →
      (w1.bus w1.n).ret = e →
      (sam_configure fuel w).1 = some e ∧
      (sam_configure fuel w).2.n = w1.n + 1 ∧
      busOps (sam_configure fuel w).2.trace =
        busOps w1.trace ++ [Event.read PN532_I2C_ADDRESS 7 e]) ∧
    (∀ (b1 : Bool) (w1 : World), (w.bus w.n).ret = ESP_OK →
      waitready fuel (pn532_send_command SAMConfigCmd SAMConfigCmd.length w).2 = (some b1, w1) →
      (w1.bus w1.n).ret = ESP_OK →
      (w1.bus (w1.n + 1)).ret = e →
      (sam_configure fuel w).1 = some e ∧
      (sam_configure fuel w).2.n = w1.n + 2 ∧
      busOps (sam_configure fuel w).2.trace =
        busOps w1.trace ++
          [Event.read PN532_I2C_ADDRESS 7 ESP_OK, Event.read PN532_I2C_ADDRESS 7 e]) ∧
    ((w.bus w.n).ret = e →
      (read_rfid_tag fuel w).1 = some e ∧
      (read_rfid_tag fuel w).2.n = w.n + 1 ∧
      busOps (read_rfid_tag fuel w).2.trace =
        busOps w.trace ++ [Event.write PN532_I2C_ADDRESS ReadPassiveTargetCmd e]) ∧
    (∀ (b1 : Bool) (w1 : World), (w.bus w.n).ret = ESP_OK →
      waitready fuel
        (pn532_send_command ReadPassiveTargetCmd ReadPassiveTargetCmd.length
          (vTaskDelay 50 w)).2 = (some b1, w1) →
      (w1.bus w1.n).ret = e →
      (read_rfid_tag fuel w).1 = some e ∧
      (read_rfid_tag fuel w).2.n = w1.n + 1 ∧
      busOps (read_rfid_tag fuel w).2.trace =
        busOps w1.trace ++ [Event.read PN532_I2C_ADDRESS 7 e]) ∧
    (∀ (b1 b2 : Bool) (w1 w3 : World), (w.bus w.n).ret = ESP_OK →
      waitready fuel
        (pn532_send_command ReadPassiveTargetCmd ReadPassiveTargetCmd.length
          (vTaskDelay 50 w)).2 = (some b1, w1) →
      (w1.bus w1.n).ret = ESP_OK →
      waitready fuel (pn532_receive_response (w1.local_array 20) 7 w1).2.2 = (some b2, w3) →
      (w3.bus w3.n).ret = e →
      (read_rfid_tag fuel w).1 = some e ∧
      (read_rfid_tag fuel w).2.n = w3.n + 1 ∧
      busOps (read_rfid_tag fuel w).2.trace =
        busOps w3.trace ++ [Event.read PN532_I2C_ADDRESS 20 e]) := by
  refine ⟨?_, ?_, ?_, ?_, ?_, ?_⟩
  · intro h
    subst h
    simp [sam_configure, pn532_send_command, he, World.emit, busOps_append]
    simp [busOps, SAMConfigCmd]
  · intro b1 w1 hs hw hr
    subst hr
    simp only [pn532_send_command, hs, List.take_length] at hw
    simp [sam_configure, pn532_send_command, hs, hw, pn532_receive_response, he, World.emit,
      vTaskDelay, busOps_append]
    simp [busOps]
  · intro b1 w1 hs hw hr1 hr2
    subst hr2
    simp only [pn532_send_command, hs, List.take_length] at hw
    simp [sam_configure, pn532_send_command, hs, hw, pn532_receive_response, hr1, he, World.emit,
      vTaskDelay, busOps_append]
    simp [busOps]
  · intro h
    subst h
    simp [read_rfid_tag, pn532_send_command, he, World.emit, vTaskDelay, busOps_append]
    simp [busOps, ReadPassiveTargetCmd]
  · intro b1 w1 hs hw hr
    subst hr
    simp only [pn532_send_command, vTaskDelay, World.emit, hs, List.take_length,
      List.append_assoc, List.singleton_append] at hw
    simp [read_rfid_tag, pn532_send_command, hs, hw, pn532_receive_response, he, World.emit,
      vTaskDelay, busOps_append]
    simp [busOps]
  · intro b1 b2 w1 w3 hs hw hr1 hw2 hr
    subst hr
    simp only [pn532_send_command, vTaskDelay, World.emit, hs, List.take_length,
      List.append_assoc, List.singleton_append] at hw
    simp only [pn532_receive_response, hr1] at hw2
    simp [read_rfid_tag, pn532_send_command, hs, hw, pn532_receive_response, hr1, hw2, he,
      World.emit, vTaskDelay, busOps_append]
    simp [busOps]

theorem exchange_stops_at_bus_error_witness :
    ((sam_configure 1 busDead).1 = some ESP_FAIL ∧
      (sam_configure 1 busDead).2.n = 1 ∧
      busOps (sam_configure 1 busDead).2.trace =
        [Event.write PN532_I2C_ADDRESS SAMConfigCmd ESP_FAIL]) ∧
    ((sam_configure 1 firstReadFails).1 = some ESP_FAIL ∧
      (sam_configure 1 firstReadFails).2.n = 3 ∧
      busOps (sam_configure 1 firstReadFails).2.trace =
        [Event.write PN532_I2C_ADDRESS SAMConfigCmd ESP_OK,
         Event.read PN532_I2C_ADDRESS 1 ESP_OK,
         Event.read PN532_I2C_ADDRESS 7 ESP_FAIL]) ∧
    ((sam_configure 1 secondReadFails).1 = some ESP_FAIL ∧
      (sam_configure 1 secondReadFails).2.n = 4 ∧
      busOps (sam_configure 1 secondReadFails).2.trace =
        [Event.write PN532_I2C_ADDRESS SAMConfigCmd ESP_OK,
         Event.read PN532_I2C_ADDRESS 1 ESP_OK,
         Event.read PN532_I2C_ADDRESS 7 ESP_OK,
         Event.read PN532_I2C_ADDRESS 7 ESP_FAIL]) ∧
    ((read_rfid_tag 1 busDead).1 = some ESP_FAIL ∧
      (read_rfid_tag 1 busDead).2.n = 1 ∧
      busOps (read_rfid_tag 1 busDead).2.trace =
        [Event.write PN532_I2C_ADDRESS ReadPassiveTargetCmd ESP_FAIL]) ∧
    ((read_rfid_tag 1 firstReadFails).1 = some ESP_FAIL ∧
      (read_rfid_tag 1 firstReadFails).2.n = 3 ∧
      busOps (read_rfid_tag 1 firstReadFails).2.trace =
        [Event.write PN532_I2C_ADDRESS ReadPassiveTargetCmd ESP_OK,
         Event.read PN532_I2C_ADDRESS 1 ESP_OK,
         Event.read PN532_I2C_ADDRESS 7 ESP_FAIL]) ∧
    ((read_rfid_tag 1 dataReadFails).1 = some ESP_FAIL ∧
      (read_rfid_tag 1 dataReadFails).2.n = 5 ∧
      busOps (read_rfid_tag 1 dataReadFails).2.trace =
        [Event.write PN532_I2C_ADDRESS ReadPassiveTargetCmd ESP_OK,
         Event.read PN532_I2C_ADDRESS 1 ESP_OK,
         Event.read PN532_I2C_ADDRESS 7 ESP_OK,
         Event.read PN532_I2C_ADDRESS 1 ESP_OK,
         Event.read PN532_I2C_ADDRESS 20 ESP_FAIL]) :=
  ⟨(exchange_stops_at_bus_error 1 busDead ESP_FAIL (by decide)).1 rfl,
   (exchange_stops_at_bus_error 1 firstReadFails ESP_FAIL (by decide)).2.1 true
      (waitready 1 (pn532_send_command SAMConfigCmd SAMConfigCmd.length firstReadFails).2).2
      rfl rfl rfl,
   (exchange_stops_at_bus_error 1 secondReadFails ESP_FAIL (by decide)).2.2.1 true
      (waitready 1 (pn532_send_command SAMConfigCmd SAMConfigCmd.length secondReadFails).2).2
      rfl rfl rfl rfl,
   (exchange_stops_at_bus_error 1 busDead ESP_FAIL (by decide)).2.2.2.1 rfl,
   (exchange_stops_at_bus_error 1 firstReadFails ESP_FAIL (by decide)).2.2.2.2.1 true
      (waitready 1 (pn532_send_command ReadPassiveTargetCmd ReadPassiveTargetCmd.length
        (vTaskDelay 50 firstReadFails)).2).2
      rfl rfl rfl,
   (exchange_stops_at_bus_error 1 dataReadFails ESP_FAIL (by decide)).2.2.2.2.2 true true
      (waitready 1 (pn532_send_command ReadPassiveTargetCmd ReadPassiveTargetCmd.length
        (vTaskDelay 50 dataReadFails)).2).2
      (waitready 1 (pn532_receive_response
        ((waitready 1 (pn532_send_command ReadPassiveTargetCmd ReadPassiveTargetCmd.length
          (vTaskDelay 50 dataReadFails)).2).2.local_array 20) 7
        (waitready 1 (pn532_send_command ReadPassiveTargetCmd ReadPassiveTargetCmd.length
          (vTaskDelay 50 dataReadFails)).2).2).2.2).2
      rfl rfl rfl rfl rfl⟩

theorem foldl_emit (g : Nat → Event) :
    ∀ (l : List Nat) (w : World),
      l.foldl (fun w i => w.emit (g i)) w = { w with trace := w.trace ++ l.map g } := by
  intro l
  induction l with
  | nil => intro w; simp
  | cons a l ih =>
    intro w
    simp only [List.foldl_cons, List.map_cons]
    rw [ih]
    simp [World.emit]

theorem range_map_getD (g : Nat → Event) (l : List Nat) :
    (List.range l.length).map (fun i => g (l.getD i 0)) = l.map g := by
  apply List.ext_getElem
  · simp
  · intro i h1 h2
    simp at h1
    simp [List.getElem?_eq_getElem h1]

theorem print_bytes_all (response : List Nat) (w : World) :
    print_bytes response response.length w =
      { w with trace := w.trace ++ dumpOf response } := by
  unfold print_bytes dumpOf
  rw [foldl_emit (fun i => Event.printf "0x%02X " [LogArg.num (response.getD i 0)])]
  rw [range_map_getD (fun (b : Nat) => Event.printf "0x%02X " [LogArg.num (b : Int)])]

theorem length_local_array (w : World) (size : Nat) : (w.local_array size).length = size := by
  simp [World.local_array]

theorem store_full (buf frame : List Nat) (hlen : buf.length ≤ frame.length)
    (hbytes : ∀ b ∈ frame, b < 256) : store buf frame = frame := by
  unfold store
  rw [List.drop_eq_nil_of_le hlen, List.append_nil]
  conv_rhs => rw [← List.map_id frame]
  apply List.map_congr_left
  intro b hb
  simpa using Nat.mod_eq_of_lt (hbytes b hb)

theorem length_store (buf bytes : List Nat) (h : bytes.length ≤ buf.length) :
    (store buf bytes).length = buf.length := by
  simp [store]; omega

/-- What `read_rfid_tag` does when every bus transaction succeeds and both
readiness waits return, for a 20-byte data frame. -/
theorem read_rfid_tag_all_ok (fuel : Nat) (w : World) (b1 b2 : Bool) (w1 w3 : World)
    (frame : List Nat)
    (hsend : (w.bus w.n).ret = ESP_OK)
    (hwait1 : waitready fuel
      (pn532_send_command ReadPassiveTargetCmd ReadPassiveTargetCmd.length
        (vTaskDelay 50 w)).2 = (some b1, w1))
    (hack : (w1.bus w1.n).ret = ESP_OK)
    (hwait2 : waitready fuel (pn532_receive_response (w1.local_array 20) 7 w1).2.2
      = (some b2, w3))
    (hret : (w3.bus w3.n).ret = ESP_OK)
    (hdata : (w3.bus w3.n).data = frame)
    (hlen : frame.length = 20) (hbytes : ∀ b ∈ frame, b < 256) :
    read_rfid_tag fuel w =
      (some ESP_OK,
        { w3 with n := w3.n + 1,
                  trace := w3.trace ++
                    ([Event.read PN532_I2C_ADDRESS 20 ESP_OK, Event.logi "tag detected" []]
                      ++ dumpOf frame ++ [Event.printf "\n" []]) }) := by
  simp only [pn532_send_command, vTaskDelay, World.emit, hsend, List.take_length,
    List.append_assoc, List.singleton_append] at hwait1
  simp only [pn532_receive_response, hack] at hwait2
  have hbuf : store (store (w1.local_array 20) (List.take 7 (w1.bus w1.n).data))
      (List.take 20 frame) = frame := by
    have htake : List.take 20 frame = frame := List.take_of_length_le (by omega)
    rw [htake]
    apply store_full _ _ _ hbytes
    rw [length_store _ _ (by simp [length_local_array]), length_local_array]
    omega
  have hpr := print_bytes_all frame
  rw [hlen] at hpr
  simp [read_rfid_tag, pn532_send_command, hsend, hwait1, pn532_receive_response, hack, hwait2,
    hret, hdata, hbuf, hpr, World.emit, vTaskDelay]

/-- Claim C4, refuted as stated: `corruptedFrame` is the wire-format encoding
of its payload except that bit 0 of its data checksum is flipped, and the
tag-read exchange that receives it returns `ESP_OK`, logs "tag detected" and
prints the twenty bytes. -/
theorem read_rfid_tag_accepts_bad_checksum :
    corruptedFrame.take 18 =
      (specEncode 0xD5 [0x4B, 0x01, 0x01, 0x00, 0x04, 0x08, 0x04, 0xDE, 0xAD, 0xBE, 0xEF]).set 16
        (specDcs 0xD5 [0x4B, 0x01, 0x01, 0x00, 0x04, 0x08, 0x04, 0xDE, 0xAD, 0xBE, 0xEF]
          ^^^ 0x01) ∧
    dcsByte corruptedFrame ^^^ requiredDcs corruptedFrame = 0x01 ∧
    (read_rfid_tag 1 corruptedWorld).1 = some ESP_OK ∧
    (read_rfid_tag 1 corruptedWorld).2.trace =
      [Event.delay 50,
       Event.write PN532_I2C_ADDRESS ReadPassiveTargetCmd ESP_OK,
       Event.read PN532_I2C_ADDRESS 1 ESP_OK,
       Event.read PN532_I2C_ADDRESS 7 ESP_OK,
       Event.read PN532_I2C_ADDRESS 1 ESP_OK,
       Event.read PN532_I2C_ADDRESS 20 ESP_OK,
       Event.logi "tag detected" []] ++ dumpOf corruptedFrame ++ [Event.printf "\n" []] := by
  refine ⟨by decide, by decide, by decide, by decide⟩

/-- Claim C4, amended: `read_rfid_tag` validates no checksum.  When every bus
transaction of the exchange succeeds and both readiness waits return, a
20-byte data frame whose data-checksum byte differs in exactly one bit (bit
`k`) from the value the wire format requires is accepted: the function returns
`ESP_OK` and reports the frame, logging "tag detected" and printing its twenty
bytes. -/
theorem read_rfid_tag_ignores_checksum (fuel : Nat) (w : World) (b1 b2 : Bool)
    (w1 w3 : World) (frame : List Nat) (k : Nat)
    (hsend : (w.bus w.n).ret = ESP_OK)
    (hwait1 : waitready fuel
      (pn532_send_command ReadPassiveTargetCmd ReadPassiveTargetCmd.length
        (vTaskDelay 50 w)).2 = (some b1, w1))
    (hack : (w1.bus w1.n).ret = ESP_OK)
    (hwait2 : waitready fuel (pn532_receive_response (w1.local_array 20) 7 w1).2.2
      = (some b2, w3))
    (hdata : w3.bus w3.n = ⟨ESP_OK, frame⟩)
    (hlen : frame.length = 20) (hbytes : ∀ b ∈ frame, b < 256)
    (_hk : k < 8) (_hflip : dcsByte frame ^^^ requiredDcs frame = 2 ^ k) :
    (read_rfid_tag fuel w).1 = some ESP_OK ∧
    (read_rfid_tag fuel w).2.trace =
      w3.trace ++ ([Event.read PN532_I2C_ADDRESS 20 ESP_OK, Event.logi "tag detected" []]
        ++ dumpOf frame ++ [Event.printf "\n" []]) := by
  rw [read_rfid_tag_all_ok fuel w b1 b2 w1 w3 frame hsend hwait1 hack hwait2
    (by rw [hdata]) (by rw [hdata]) hlen hbytes]
  exact ⟨rfl, rfl⟩

theorem read_rfid_tag_ignores_checksum_witness :
    (read_rfid_tag 1 corruptedWorld).1 = some ESP_OK ∧
    (read_rfid_tag 1 corruptedWorld).2.trace =
      (waitready 1 (pn532_receive_response
        ((waitready 1 (pn532_send_command ReadPassiveTargetCmd ReadPassiveTargetCmd.length
          (vTaskDelay 50 corruptedWorld)).2).2.local_array 20) 7
        (waitready 1 (pn532_send_command ReadPassiveTargetCmd ReadPassiveTargetCmd.length
          (vTaskDelay 50 corruptedWorld)).2).2).2.2).2.trace ++
        ([Event.read PN532_I2C_ADDRESS 20 ESP_OK, Event.logi "tag detected" []]
          ++ dumpOf corruptedFrame ++ [Event.printf "\n" []]) :=
  read_rfid_tag_ignores_checksum 1 corruptedWorld true true
    (waitready 1 (pn532_send_command ReadPassiveTargetCmd ReadPassiveTargetCmd.length
      (vTaskDelay 50 corruptedWorld)).2).2
    (waitready 1 (pn532_receive_response
      ((waitready 1 (pn532_send_command ReadPassiveTargetCmd ReadPassiveTargetCmd.length
        (vTaskDelay 50 corruptedWorld)).2).2.local_array 20) 7
      (waitready 1 (pn532_send_command ReadPassiveTargetCmd ReadPassiveTargetCmd.length
        (vTaskDelay 50 corruptedWorld)).2).2).2.2).2
    corruptedFrame 0 rfl rfl rfl rfl rfl rfl (by decide) (by decide) (by decide)

/-- Claim C10, refuted as stated: `zeroTargetFrame` is the well-formed
frame for the payload `4B 00` (target count zero) followed by padding, and the
tag-read exchange that receives it returns `ESP_OK` but logs "tag detected"
and dumps the buffer instead of reporting that no tag is present. -/
theorem read_rfid_tag_reports_tag_on_zero_targets :
    zeroTargetFrame = specEncode 0xD5 [0x4B, 0x00] ++ List.replicate 11 0x00 ∧
    (read_rfid_tag 1 zeroTargetWorld).1 = some ESP_OK ∧
    (read_rfid_tag 1 zeroTargetWorld).2.trace =
      [Event.delay 50,
       Event.write PN532_I2C_ADDRESS ReadPassiveTargetCmd ESP_OK,
       Event.read PN532_I2C_ADDRESS 1 ESP_OK,
       Event.read PN532_I2C_ADDRESS 7 ESP_OK,
       Event.read PN532_I2C_ADDRESS 1 ESP_OK,
       Event.read PN532_I2C_ADDRESS 20 ESP_OK,
       Event.logi "tag detected" []] ++ dumpOf zeroTargetFrame ++ [Event.printf "\n" []] := by
  refine ⟨by decide, by decide, by decide⟩

/-- Claim C10, amended: `read_rfid_tag` does not interpret the response.
When every bus transaction of the exchange succeeds and both readiness waits
return, a 20-byte response frame with a zero target-count field (at whichever
index `i` the field is taken to sit) makes the function return `ESP_OK`, and
what it reports after the data read is the log line "tag detected" followed
by the dump of the twenty bytes; that log line is the only one. -/
theorem read_rfid_tag_zero_targets (fuel : Nat) (w : World) (b1 b2 : Bool)
    (w1 w3 : World) (frame : List Nat) (i : Nat)
    (hsend : (w.bus w.n).ret = ESP_OK)
    (hwait1 : waitready fuel
      (pn532_send_command ReadPassiveTargetCmd ReadPassiveTargetCmd.length
        (vTaskDelay 50 w)).2 = (some b1, w1))
    (hack : (w1.bus w1.n).ret = ESP_OK)
    (hwait2 : waitready fuel (pn532_receive_response (w1.local_array 20) 7 w1).2.2
      = (some b2, w3))
    (hdata : w3.bus w3.n = ⟨ESP_OK, frame⟩)
    (hlen : frame.length = 20) (hbytes : ∀ b ∈ frame, b < 256)
    (_hi : i < 20) (_hzero : frame.getD i 0 = 0) :
    read_rfid_tag fuel w =
      (some ESP_OK,
        { w3 with n := w3.n + 1,
                  trace := w3.trace ++
                    ([Event.read PN532_I2C_ADDRESS 20 ESP_OK, Event.logi "tag detected" []]
                      ++ dumpOf frame ++ [Event.printf "\n" []]) }) :=
  read_rfid_tag_all_ok fuel w b1 b2 w1 w3 frame hsend hwait1 hack hwait2
    (by rw [hdata]) (by rw [hdata]) hlen hbytes

theorem read_rfid_tag_zero_targets_witness :
    (read_rfid_tag 1 zeroTargetWorld).1 = some ESP_OK :=
  congrArg Prod.fst
    (read_rfid_tag_zero_targets 1 zeroTargetWorld true true
      (waitready 1 (pn532_send_command ReadPassiveTargetCmd ReadPassiveTargetCmd.length
        (vTaskDelay 50 zeroTargetWorld)).2).2
      (waitready 1 (pn532_receive_response
        ((waitready 1 (pn532_send_command ReadPassiveTargetCmd ReadPassiveTargetCmd.length
          (vTaskDelay 50 zeroTargetWorld)).2).2.local_array 20) 7
        (waitready 1 (pn532_send_command ReadPassiveTargetCmd ReadPassiveTargetCmd.length
          (vTaskDelay 50 zeroTargetWorld)).2).2).2.2).2
      zeroTargetFrame 6 rfl rfl rfl rfl rfl rfl (by decide) (by decide) (by decide))

theorem cmdWrites_dump (cmd : List Nat) (g : Nat → List LogArg) (l : List Nat) :
    cmdWrites cmd (l.map (fun i => Event.printf "0x%02X " (g i))) = 0 := by
  induction l with
  | nil => simp [cmdWrites]
  | cons a l ih =>
    simp only [List.map_cons]
    rw [← List.singleton_append, cmdWrites_append, ih]
    simp [cmdWrites]

theorem print_bytes_cmdWrites (cmd : List Nat) (response : List Nat) (count : Nat) (w : World) :
    cmdWrites cmd (print_bytes response count w).trace = cmdWrites cmd w.trace := by
  unfold print_bytes
  rw [foldl_emit (fun i => Event.printf "0x%02X " [LogArg.num (response.getD i 0)])]
  simp only [cmdWrites_append]
  rw [cmdWrites_dump cmd (fun i => [LogArg.num (response.getD i 0)])]
  simp

theorem cmdWrites_self (cmd : List Nat) (addr : Nat) (ret : esp_err_t) :
    cmdWrites cmd [Event.write addr cmd ret] = 1 := by
  simp [cmdWrites]

/-- Every invocation of `read_rfid_tag`, however it ends, writes the
passive-target-read command to the bus exactly once. -/
theorem read_rfid_tag_cmdWrites (fuel : Nat) (w : World) :
    cmdWrites ReadPassiveTargetCmd (read_rfid_tag fuel w).2.trace
      = cmdWrites ReadPassiveTargetCmd w.trace + 1 := by
  have hw := fun v => waitready_cmdWrites ReadPassiveTargetCmd fuel v
  have hd : cmdWrites ReadPassiveTargetCmd [Event.delay 50] = 0 := by simp [cmdWrites]
  have hl : ∀ m, cmdWrites ReadPassiveTargetCmd [Event.loge m []] = 0 := by
    intro m; simp [cmdWrites]
  have hrd : ∀ a l r, cmdWrites ReadPassiveTargetCmd [Event.read a l r] = 0 := by
    intro a l r; simp [cmdWrites]
  have hi : ∀ m, cmdWrites ReadPassiveTargetCmd [Event.logi m []] = 0 := by
    intro m; simp [cmdWrites]
  have hp : ∀ m, cmdWrites ReadPassiveTargetCmd [Event.printf m []] = 0 := by
    intro m; simp [cmdWrites]
  unfold read_rfid_tag
  simp only [pn532_send_command, vTaskDelay, World.emit, List.take_length]
  split_ifs
  · simp only [cmdWrites_append, cmdWrites_self, hd, hl]
  · rcases hres : waitready fuel
      { w with n := w.n + 1,
               trace := w.trace ++ [Event.delay 50] ++ [Event.write PN532_I2C_ADDRESS
                 ReadPassiveTargetCmd (w.bus w.n).ret] } with ⟨_ | b, w1⟩
    · have h1 := congrArg (fun p => cmdWrites ReadPassiveTargetCmd p.2.trace) hres
      simp only [hw, cmdWrites_append, cmdWrites_self, hd] at h1
      simp only
      omega
    · have h1 := congrArg (fun p => cmdWrites ReadPassiveTargetCmd p.2.trace) hres
      simp only [hw, cmdWrites_append, cmdWrites_self, hd] at h1
      simp only [pn532_receive_response]
      split_ifs
      · simp only [cmdWrites_append, hrd, hl]
        omega
      · rcases hres2 : waitready fuel
          { w1 with n := w1.n + 1,
                    trace := w1.trace ++ [Event.read PN532_I2C_ADDRESS 7 (w1.bus w1.n).ret] }
          with ⟨_ | b2, w3⟩
        · have h2 := congrArg (fun p => cmdWrites ReadPassiveTargetCmd p.2.trace) hres2
          simp only [hw, cmdWrites_append, hrd] at h2
          simp only
          omega
        · have h2 := congrArg (fun p => cmdWrites ReadPassiveTargetCmd p.2.trace) hres2
          simp only [hw, cmdWrites_append, hrd] at h2
          simp only
          split_ifs
          · simp only [cmdWrites_append, hrd, hl]
            omega
          · simp only [cmdWrites_append, print_bytes_cmdWrites, hrd, hi, hp]
            omega

theorem app_main_loop_cmdWrites_le (fuel : Nat) :
    ∀ (iters : Nat) (w : World),
      cmdWrites ReadPassiveTargetCmd w.trace
        ≤ cmdWrites ReadPassiveTargetCmd (app_main_loop iters fuel w).2.trace := by
  intro iters
  induction iters with
  | zero => intro w; simp [app_main_loop]
  | succ iters ih =>
    intro w
    have hr := read_rfid_tag_cmdWrites fuel w
    simp only [app_main_loop]
    rcases hres : read_rfid_tag fuel w with ⟨_ | ret, w1⟩
    · rw [hres] at hr
      simp only at hr ⊢
      omega
    · rw [hres] at hr
      simp only at hr ⊢
      refine Nat.le_trans ?_ (ih _)
      have hl : cmdWrites ReadPassiveTargetCmd [Event.loge "Failed to read RFID tag" []] = 0 := by
        simp [cmdWrites]
      have hd : cmdWrites ReadPassiveTargetCmd [Event.delay 1000] = 0 := by simp [cmdWrites]
      split_ifs <;> simp only [vTaskDelay, World.emit, cmdWrites_append, hr, hl, hd] <;> omega

theorem app_main_loop_cmdWrites_succ (fuel iters : Nat) (w : World) :
    cmdWrites ReadPassiveTargetCmd w.trace + 1
      ≤ cmdWrites ReadPassiveTargetCmd (app_main_loop (iters + 1) fuel w).2.trace := by
  have hr := read_rfid_tag_cmdWrites fuel w
  simp only [app_main_loop]
  rcases hres : read_rfid_tag fuel w with ⟨_ | ret, w1⟩
  · rw [hres] at hr
    simp only at hr ⊢
    omega
  · rw [hres] at hr
    simp only at hr ⊢
    refine Nat.le_trans ?_ (app_main_loop_cmdWrites_le fuel iters _)
    have hl : cmdWrites ReadPassiveTargetCmd [Event.loge "Failed to read RFID tag" []] = 0 := by
      simp [cmdWrites]
    have hd : cmdWrites ReadPassiveTargetCmd [Event.delay 1000] = 0 := by simp [cmdWrites]
    split_ifs <;> simp only [vTaskDelay, World.emit, cmdWrites_append, hr, hl, hd] <;> omega

theorem app_main_loop_never_returns (fuel : Nat) :
    ∀ (iters : Nat) (w : World), (app_main_loop iters fuel w).1 = none := by
  intro iters
  induction iters with
  | zero => intro w; simp [app_main_loop]
  | succ iters ih =>
    intro w
    simp only [app_main_loop]
    rcases read_rfid_tag fuel w with ⟨_ | ret, w1⟩
    · rfl
    · exact ih _

theorem i2c_master_init_cmdWrites (cmd : List Nat) (w : World) :
    cmdWrites cmd (i2c_master_init w).2.trace = cmdWrites cmd w.trace := by
  unfold i2c_master_init
  simp only [World.emit]
  split_ifs <;> simp [cmdWrites_append] <;> simp [cmdWrites]

/-- Claim C9: when `sam_configure` returns an error, `app_main` returns
right after logging "SAM configuration failed"; nothing of `read_rfid_tag` is
executed, and the run adds no write of `ReadPassiveTargetCmd` to the bus
trace. -/
theorem config_failure_is_fatal (iters fuel : Nat) (w : World) (e : esp_err_t)
    (hinit : (i2c_master_init w).1 = ESP_OK)
    (hcfg : (sam_configure fuel (i2c_master_init w).2).1 = some e)
    (he : e ≠ ESP_OK) :
    app_main iters fuel w =
      (some (), (sam_configure fuel (i2c_master_init w).2).2.emit
        (Event.loge "SAM configuration failed" [])) ∧
    cmdWrites ReadPassiveTargetCmd (app_main iters fuel w).2.trace
      = cmdWrites ReadPassiveTargetCmd w.trace := by
  have hc := sam_configure_cmdWrites fuel (i2c_master_init w).2
  have hi := i2c_master_init_cmdWrites ReadPassiveTargetCmd w
  have hmain : app_main iters fuel w =
      (some (), (sam_configure fuel (i2c_master_init w).2).2.emit
        (Event.loge "SAM configuration failed" [])) := by
    unfold app_main
    rcases hres : i2c_master_init w with ⟨r, w0⟩
    rw [hres] at hinit hcfg
    simp only at hinit hcfg ⊢
    subst hinit
    rcases hres2 : sam_configure fuel w0 with ⟨_ | r2, w2⟩
    · rw [hres2] at hcfg; simp at hcfg
    · rw [hres2] at hcfg
      simp only [Option.some.injEq] at hcfg
      subst hcfg
      simp [he]
  refine ⟨hmain, ?_⟩
  rw [hmain]
  simp only [World.emit, cmdWrites_append, hc, hi]
  simp [cmdWrites]

theorem config_failure_is_fatal_witness :
    app_main 3 1 busDead =
      (some (), (sam_configure 1 (i2c_master_init busDead).2).2.emit
        (Event.loge "SAM configuration failed" [])) ∧
    cmdWrites ReadPassiveTargetCmd (app_main 3 1 busDead).2.trace
      = cmdWrites ReadPassiveTargetCmd busDead.trace :=
  config_failure_is_fatal 3 1 busDead ESP_FAIL rfl rfl (by decide)

/-- Claim C3, refuted as stated: every bus transaction succeeds, the seven
bytes read back as acknowledgement are `55 55 55 55 55 55 55`, and
`sam_configure` returns `ESP_OK`; `app_main` then enters its loop and writes
the passive-target-read command. -/
theorem sam_configure_accepts_bad_ack :
    (sam_configure 1 badAckWorld).1 = some ESP_OK ∧
    (sam_configure 1 badAckWorld).2.trace =
      [Event.write PN532_I2C_ADDRESS SAMConfigCmd ESP_OK,
       Event.read PN532_I2C_ADDRESS 1 ESP_OK,
       Event.delay 50,
       Event.read PN532_I2C_ADDRESS 7 ESP_OK,
       Event.read PN532_I2C_ADDRESS 7 ESP_OK,
       Event.logi "SAMConfig response: 0x%02X" [LogArg.num 0x55]] ∧
    (app_main 1 1 badAckWorld).1 = none ∧
    cmdWrites ReadPassiveTargetCmd (app_main 1 1 badAckWorld).2.trace = 1 := by
  refine ⟨by decide, by decide, by decide, by decide⟩

/-- Claim C3, amended: `sam_configure` validates nothing it reads.  When
every bus transaction of the configuration exchange succeeds and the readiness
wait returns, `sam_configure` returns `ESP_OK` even though the seven bytes
`ack` read back differ from the `expected` acknowledgement, whatever that
pattern is; `app_main` then does not return but enters the steady-state loop,
whose first iteration writes the passive-target-read command. -/
theorem sam_configure_ignores_ack (iters fuel : Nat) (w : World) (b1 : Bool) (w1 : World)
    (ack expected : List Nat)
    (hinit : (i2c_master_init w).1 = ESP_OK)
    (hsend : ((i2c_master_init w).2.bus (i2c_master_init w).2.n).ret = ESP_OK)
    (hwait : waitready fuel
      (pn532_send_command SAMConfigCmd SAMConfigCmd.length (i2c_master_init w).2).2
        = (some b1, w1))
    (hack : w1.bus w1.n = ⟨ESP_OK, ack⟩)
    (_hlen : ack.length = 7) (_hmismatch : ack ≠ expected)
    (hsecond : (w1.bus (w1.n + 1)).ret = ESP_OK) :
    (sam_configure fuel (i2c_master_init w).2).1 = some ESP_OK ∧
    (app_main iters fuel w).1 = none ∧
    cmdWrites ReadPassiveTargetCmd w.trace + 1
      ≤ cmdWrites ReadPassiveTargetCmd (app_main (iters + 1) fuel w).2.trace := by
  have hc := sam_configure_cmdWrites fuel (i2c_master_init w).2
  have hi := i2c_master_init_cmdWrites ReadPassiveTargetCmd w
  have hack1 : (w1.bus w1.n).ret = ESP_OK := by rw [hack]
  have hcfg : (sam_configure fuel (i2c_master_init w).2).1 = some ESP_OK := by
    simp only [pn532_send_command, hsend, List.take_length] at hwait
    simp [sam_configure, pn532_send_command, hsend, hwait, pn532_receive_response, hack1,
      hsecond, vTaskDelay, World.emit]
  have hmain : ∀ k, app_main k fuel w =
      app_main_loop k fuel (sam_configure fuel (i2c_master_init w).2).2 := by
    intro k
    unfold app_main
    rcases hres : i2c_master_init w with ⟨r, w0⟩
    rw [hres] at hinit hcfg
    simp only at hinit hcfg ⊢
    subst hinit
    rcases hres2 : sam_configure fuel w0 with ⟨_ | r2, w2⟩
    · rw [hres2] at hcfg; simp at hcfg
    · rw [hres2] at hcfg
      simp only [Option.some.injEq] at hcfg
      subst hcfg
      simp
  refine ⟨hcfg, ?_, ?_⟩
  · rw [hmain]; exact app_main_loop_never_returns fuel iters _
  · rw [hmain]
    have h := app_main_loop_cmdWrites_succ fuel iters (sam_configure fuel (i2c_master_init w).2).2
    omega

theorem sam_configure_ignores_ack_witness :
    (sam_configure 1 (i2c_master_init badAckWorld).2).1 = some ESP_OK ∧
    (app_main 2 1 badAckWorld).1 = none ∧
    cmdWrites ReadPassiveTargetCmd badAckWorld.trace + 1
      ≤ cmdWrites ReadPassiveTargetCmd (app_main (2 + 1) 1 badAckWorld).2.trace :=
  sam_configure_ignores_ack 2 1 badAckWorld true
    (waitready 1
      (pn532_send_command SAMConfigCmd SAMConfigCmd.length (i2c_master_init badAckWorld).2).2).2
    badAck ackBytes rfl rfl rfl rfl rfl (by decide) rfl

/-- Claim C5, evaluated on the failing input: in a configuration exchange
whose transactions all succeed, `sam_configure` polls once, sleeps, and then
issues its two 7-byte frame reads back to back, with no readiness wait between
them; `read_rfid_tag` on the same kind of world does poll before each frame
read. -/
theorem sam_configure_second_read_not_gated :
    (sam_configure 1 samOkWorld).1 = some ESP_OK ∧
    (sam_configure 1 samOkWorld).2.trace =
      [Event.write PN532_I2C_ADDRESS SAMConfigCmd ESP_OK,
       Event.read PN532_I2C_ADDRESS 1 ESP_OK,
       Event.delay 50,
       Event.read PN532_I2C_ADDRESS 7 ESP_OK,
       Event.read PN532_I2C_ADDRESS 7 ESP_OK,
       Event.logi "SAMConfig response: 0x%02X" [LogArg.num 0x01]] ∧
    busOps (read_rfid_tag 1 zeroTargetWorld).2.trace =
      [Event.write PN532_I2C_ADDRESS ReadPassiveTargetCmd ESP_OK,
       Event.read PN532_I2C_ADDRESS 1 ESP_OK,
       Event.read PN532_I2C_ADDRESS 7 ESP_OK,
       Event.read PN532_I2C_ADDRESS 1 ESP_OK,
       Event.read PN532_I2C_ADDRESS 20 ESP_OK] := by
  refine ⟨by decide, by decide, by decide⟩

end PN532
